import Mathlib

/-!
# Verification of the weather-forecast CRUD application

A shallow embedding of `src/app.py` (Flask + SQLAlchemy + requests) and proofs
of the specification's claims about it.

Modelling conventions:
* Machine state that Python keeps implicitly (the SQLite table, the wall
  clock, the outcome of outbound HTTP requests) is passed explicitly: each
  handler takes the current `Store`, the would-be outcomes of the HTTP calls
  it may issue (`HttpOutcome`), and, where it creates records, the current
  time as a tick counter.
* Python exceptions are modelled with `Except Exc`: a handler that lets an
  exception escape returns `.error e`; a `try/except` block in the source
  becomes a `match` that intercepts the `.error` case.
* Upstream weather payloads are opaque to this application (the spec's
  store-and-forward rule): the app never inspects them, it only serialises
  them with `json.dumps` and deserialises with `json.loads`.  We therefore
  model a payload by its serialised text, making `json_dumps`/`json_loads`
  the identity on that representation.
* Coordinates are exact rationals (`Rat`): the app performs no arithmetic on
  them, only pass-through, so the floating-point representation is
  irrelevant to every claim.
* `datetime.date` values are `Date` triples; `str(date)` and
  `strptime(_, "%Y-%m-%d")` are modelled character-for-character, including
  CPython's regex for `%Y`/`%m`/`%d` and the `date()` constructor's
  range/day-of-month validation.
-/

namespace WeatherApp

/-! ## Dates: `datetime.date`, `str(date)`, `strptime(s, "%Y-%m-%d")` -/

/-- A calendar date, as held by a Python `datetime.date`. -/
structure Date where
  year : Nat
  month : Nat
  day : Nat
deriving Repr, DecidableEq

/-- Gregorian leap-year rule, as used by `datetime.date`. -/
def isLeap (y : Nat) : Bool :=
  y % 4 == 0 && (y % 100 != 0 || y % 400 == 0)

/-- Days in a month, as validated by the `datetime.date` constructor. -/
def daysInMonth (y m : Nat) : Nat :=
  if m = 2 then (if isLeap y then 29 else 28)
  else if m = 4 ∨ m = 6 ∨ m = 9 ∨ m = 11 then 30
  else 31

/-- The `datetime.date(y, m, d)` constructor's validity check
(`MINYEAR = 1`, `MAXYEAR = 9999`). -/
def validDate (d : Date) : Bool :=
  1 ≤ d.year && d.year ≤ 9999 &&
  1 ≤ d.month && d.month ≤ 12 &&
  1 ≤ d.day && d.day ≤ daysInMonth d.year d.month

/-- Python `date` comparison `a < b` (lexicographic on year, month, day). -/
def dateLt (a b : Date) : Bool :=
  a.year < b.year ||
  (a.year == b.year && (a.month < b.month ||
    (a.month == b.month && a.day < b.day)))

/-- Python `date` comparison `a <= b`. -/
def dateLe (a b : Date) : Bool :=
  a.year < b.year ||
  (a.year == b.year && (a.month < b.month ||
    (a.month == b.month && a.day ≤ b.day)))

/-- The decimal digit character for `n % 10`. -/
def digitChar (n : Nat) : Char := Char.ofNat (48 + n % 10)

/-- Numeric value of a digit character. -/
def digitVal (c : Char) : Nat := c.toNat - 48

/-- Two zero-padded decimal digits (`"%02d"`). -/
def pad2 (n : Nat) : List Char := [digitChar (n / 10), digitChar n]

/-- Four zero-padded decimal digits (`"%04d"`). -/
def pad4 (n : Nat) : List Char :=
  [digitChar (n / 1000), digitChar (n / 100), digitChar (n / 10), digitChar n]

/-- Python `str(date)` = `date.isoformat()`: `"YYYY-MM-DD"`, zero padded. -/
def formatDate (d : Date) : String :=
  ⟨pad4 d.year ++ '-' :: (pad2 d.month ++ '-' :: pad2 d.day)⟩

/-- CPython `_strptime`'s regex fragment for `%m` (`1[0-2]|0[1-9]|[1-9]`) and
`%d` (`3[01]|[12]\d|0[1-9]|[1-9]`): consume two digits when their value lies
in `1..maxTwo`, otherwise fall back to a single non-zero digit. -/
def matchNum2 (maxTwo : Nat) : List Char → Option (Nat × List Char)
  | c1 :: c2 :: rest =>
    if c1.isDigit && c2.isDigit then
      let v := digitVal c1 * 10 + digitVal c2
      if 1 ≤ v && v ≤ maxTwo then some (v, rest)
      else if 1 ≤ digitVal c1 then some (digitVal c1, c2 :: rest)
      else none
    else if c1.isDigit && 1 ≤ digitVal c1 then some (digitVal c1, c2 :: rest)
    else none
  | [c1] => if c1.isDigit && 1 ≤ digitVal c1 then some (digitVal c1, []) else none
  | [] => none

/-- `datetime.strptime(s, "%Y-%m-%d").date()`: four digits (`%Y`), a dash,
the `%m` pattern, a dash, the `%d` pattern, end of input; then the
`datetime.date` constructor validates year range and day-of-month.
Returns `none` where Python raises `ValueError`. -/
def strptimeDate (s : String) : Option Date :=
  match s.data with
  | y1 :: y2 :: y3 :: y4 :: c5 :: rest =>
    if y1.isDigit && y2.isDigit && y3.isDigit && y4.isDigit && c5 == '-' then
      let y := digitVal y1 * 1000 + digitVal y2 * 100 + digitVal y3 * 10 + digitVal y4
      match matchNum2 12 rest with
      | some (m, c6 :: rest3) =>
        if c6 == '-' then
          match matchNum2 31 rest3 with
          | some (d, []) =>
            if 1 ≤ y && d ≤ daysInMonth y m then some ⟨y, m, d⟩ else none
          | _ => none
        else none
      | _ => none
    else none
  | _ => none

/-- `parse_date` from `app.py`: `None`/empty string give `None`; otherwise
`strptime`; a malformed string raises `ValueError`, modelled as `.error ()`. -/
def parse_date (d : Option String) : Except Unit (Option Date) :=
  match d with
  | none => .ok none
  | some s =>
    if s = "" then .ok none
    else
      match strptimeDate s with
      | some dt => .ok (some dt)
      | none => .error ()

/-- Both `parse_date` calls inside the shared `try` block of the create and
edit handlers: the first failure aborts. -/
def parse_dates (s e : Option String) : Except Unit (Option Date × Option Date) := do
  let sd ← parse_date s
  let ed ← parse_date e
  return (sd, ed)

/-- The guard `if start_date and end_date and start_date > end_date` shared
by the create and edit handlers (a Python `date` is always truthy). -/
def datesOutOfOrder : Option Date → Option Date → Bool
  | some s, some e => dateLt e s
  | _, _ => false

/-! ## Exceptions, HTTP outcomes, configuration -/

/-- Exceptions raised by the `requests` calls: `Timeout`, `ConnectionError`,
or `HTTPError` from `raise_for_status()` on a non-success status. -/
inductive ReqExc
  | httpError
  | timeout
  | connectionError
deriving Repr, DecidableEq

/-- Python exceptions relevant to the app: `RuntimeError` raised by the
clients when the key is missing, and the `requests` exceptions. -/
inductive Exc
  | runtimeError (msg : String)
  | requestExc (e : ReqExc)
deriving Repr, DecidableEq

/-- Outcome of one outbound HTTP request, as observed by the caller after
`requests.get(...)` and `raise_for_status()`: either the parsed success body
or a raised exception. -/
inductive HttpOutcome (α : Type)
  | success (body : α)
  | failure (e : ReqExc)
deriving Repr, DecidableEq

/-- Which external call a client issued, in order. -/
inductive ApiCall
  | geocodeCall
  | currentCall
  | forecastCall
deriving Repr, DecidableEq

/-- The fallback literal in
`os.environ.get("OPENWEATHER_API_KEY", "54c3e5436355a0e40913a9976b9e75ef")`. -/
def defaultApiKey : String := "54c3e5436355a0e40913a9976b9e75ef"

/-- `WEATHER_API_KEY = os.environ.get("OPENWEATHER_API_KEY", default)`:
the environment value when the variable is set, the fallback otherwise. -/
def resolve_api_key (env : Option String) : String :=
  env.getD defaultApiKey

/-! ## Upstream payloads and JSON

The app never looks inside the weather payloads (store-and-forward): a
payload is modelled by its serialised text, so `json.dumps` and `json.loads`
are the identity on that representation. -/

/-- An opaque upstream JSON payload, identified with its serialised text. -/
abbrev Json := String

/-- `json.dumps` on an opaque payload. -/
def json_dumps (v : Json) : String := v

/-- `json.loads` on a stored blob. -/
def json_loads (s : String) : Json := s

/-- Python `f"{x}"` on an optional value: `None` renders as `"None"`. -/
def pyStr : Option String → String
  | none => "None"
  | some s => s

/-- The characters removed by Python's `str.strip()`. -/
def pyWhitespace (c : Char) : Bool :=
  c == ' ' || c == '\t' || c == '\n' || c == '\r' || c == '\x0b' || c == '\x0c'

/-- Python `str.strip()`: drop leading and trailing whitespace. -/
def pyStrip (s : String) : String :=
  ⟨((s.data.dropWhile pyWhitespace).reverse.dropWhile pyWhitespace).reverse⟩

/-! ## Geocoding client (`geocode_location`) -/

/-- One match object in the geocoding response array.  The code reads
`loc.get('name')` and `loc.get('country')` (absent keys give `None`) and
subscripts `loc["lat"]`, `loc["lon"]`. -/
structure GeoMatch where
  name : Option String
  country : Option String
  lat : Rat
  lon : Rat
deriving Repr, DecidableEq

/-- The dict returned by a successful `geocode_location`. -/
structure GeoLoc where
  name : String
  lat : Rat
  lon : Rat
deriving Repr, DecidableEq

/-- `geocode_location(query)` from `app.py`.  `resp` is the outcome of the
single outbound request; the second component lists the calls issued.
`.ok none` is the zero-match case, `.error` a raised exception. -/
def geocode_location (apiKey : String) (resp : HttpOutcome (List GeoMatch)) :
    Except Exc (Option GeoLoc) × List ApiCall :=
  if apiKey = "" then
    (.error (.runtimeError "OPENWEATHER_API_KEY is not set"), [])
  else
    match resp with
    | .failure e => (.error (.requestExc e), [.geocodeCall])
    | .success data =>
      match data with
      | [] => (.ok none, [.geocodeCall])
      | loc :: _ =>
        (.ok (some { name := pyStr loc.name ++ ", " ++ pyStr loc.country,
                     lat := loc.lat, lon := loc.lon }),
         [.geocodeCall])

/-! ## Weather client (`get_weather_and_forecast`) -/

/-- The would-be outcomes of the two weather endpoints for the coordinates
at hand (what the network would answer if asked). -/
structure WeatherApi where
  current : HttpOutcome Json
  forecast : HttpOutcome Json
deriving Repr, DecidableEq

/-- `get_weather_and_forecast(lat, lon)` from `app.py`: current conditions
first, then the forecast; `raise_for_status()` after each.  The second
component lists the calls actually issued, in order. -/
def get_weather_and_forecast (apiKey : String) (lat lon : Rat) (api : WeatherApi) :
    Except Exc (Json × Json) × List ApiCall :=
  if apiKey = "" then
    (.error (.runtimeError "OPENWEATHER_API_KEY is not set"), [])
  else
    match api.current with
    | .failure e => (.error (.requestExc e), [.currentCall])
    | .success current =>
      match api.forecast with
      | .failure e => (.error (.requestExc e), [.currentCall, .forecastCall])
      | .success forecast =>
        (.ok (current, forecast), [.currentCall, .forecastCall])

/-! ## The record store (`WeatherQuery` rows, `db.session`) -/

/-- One row of the `weather_queries` table. -/
structure WeatherQueryRec where
  id : Nat
  user_input : String
  normalized_name : Option String
  lat : Rat
  lon : Rat
  start_date : Option Date
  end_date : Option Date
  created_at : Nat
  current_weather_json : Option String
  forecast_json : Option String
deriving Repr, DecidableEq

/-- The SQLite table plus its autoincrement counter. -/
structure Store where
  recs : List WeatherQueryRec
  nextId : Nat
deriving Repr, DecidableEq

/-- `WeatherQuery.query.get(i)`: the row with primary key `i`, if any. -/
def store_get (st : Store) (i : Nat) : Option WeatherQueryRec :=
  st.recs.find? (fun r => r.id == i)

/-- In-place mutation of the row with id `i` followed by `commit`. -/
def store_update (st : Store) (i : Nat) (f : WeatherQueryRec → WeatherQueryRec) : Store :=
  { st with recs := st.recs.map (fun r => if r.id = i then f r else r) }

/-! ## Responses -/

/-- Targets of `url_for` redirects. -/
inductive Endpoint
  | indexPage
  | historyPage
  | detailPage (query_id : Nat)
  | editPage (query_id : Nat)
deriving Repr, DecidableEq

/-- A flashed message with its category. -/
abbrev Flash := String × String

/-- One item of the `/export/json` payload: exactly the eight exported
columns, the date columns rendered with `str(...)` or `null`, the raw
weather/forecast blobs omitted. -/
structure ExportItem where
  id : Nat
  user_input : String
  normalized_name : Option String
  lat : Rat
  lon : Rat
  start_date : Option String
  end_date : Option String
  created_at : String
deriving Repr, DecidableEq

/-- `created_at.isoformat()` on the tick-counter model of timestamps. -/
def createdAtIso (t : Nat) : String := toString t

/-- The responses the handlers produce. -/
inductive Resp
  | redirect (target : Endpoint)
  | renderIndex (weather forecast : Option Json) (query : Option WeatherQueryRec)
  | renderHistory (queries : List WeatherQueryRec)
  | renderDetail (query : WeatherQueryRec) (weather forecast : Option Json)
  | renderEdit (query : WeatherQueryRec)
  | notFoundResp
  | jsonError (status : Nat) (msg : String)
  | jsonCoords (current forecast : Json)
  | jsonExport (items : List ExportItem)
  | csvExport (rows : List (List String))
deriving Repr, DecidableEq

/-- What a handler hands back to Flask: the (possibly updated) store, the
flashed messages, and the response. -/
abbrev HResult := Store × List Flash × Resp

/-- The create/edit form fields (`request.form.get(...)`). -/
structure QueryForm where
  location : Option String
  start_date : Option String
  end_date : Option String
deriving Repr, DecidableEq

/-! ## Ordering used by `/history` (DESC) and `/export` (ASC) -/

/-- `ORDER BY created_at DESC`. -/
def createdDesc (a b : WeatherQueryRec) : Prop := b.created_at ≤ a.created_at

/-- `ORDER BY created_at` (ascending). -/
def createdAsc (a b : WeatherQueryRec) : Prop := a.created_at ≤ b.created_at

instance : DecidableRel createdDesc := fun a b => Nat.decLe _ _

instance : DecidableRel createdAsc := fun a b => Nat.decLe _ _

instance : IsTotal WeatherQueryRec createdDesc :=
  ⟨fun a b => Nat.le_total b.created_at a.created_at⟩

instance : IsTotal WeatherQueryRec createdAsc :=
  ⟨fun a b => Nat.le_total a.created_at b.created_at⟩

instance : IsTrans WeatherQueryRec createdDesc :=
  ⟨fun _ _ _ h1 h2 => Nat.le_trans h2 h1⟩

instance : IsTrans WeatherQueryRec createdAsc :=
  ⟨fun _ _ _ h1 h2 => Nat.le_trans h1 h2⟩

/-- The rows of the table sorted most-recent-first, as the history view
receives them. -/
def sortByCreatedDesc (l : List WeatherQueryRec) : List WeatherQueryRec :=
  l.insertionSort createdDesc

/-- The rows of the table sorted oldest-first, as the export view receives
them. -/
def sortByCreatedAsc (l : List WeatherQueryRec) : List WeatherQueryRec :=
  l.insertionSort createdAsc

/-! ## Request handlers -/

/-- The `WeatherQuery(...)` row built by the create flow (`query_obj`), with
the id the autoincrement column will assign. -/
def createdRec (location : String) (loc : GeoLoc) (sd ed : Option Date)
    (current forecast : Json) (now : Nat) (nextId : Nat) : WeatherQueryRec :=
  { id := nextId
    user_input := location
    normalized_name := some loc.name
    lat := loc.lat
    lon := loc.lon
    start_date := sd
    end_date := ed
    created_at := now
    current_weather_json := some (json_dumps current)
    forecast_json := some (json_dumps forecast) }

/-- The field assignments of the edit flow (`q.user_input = ...` through
`q.forecast_json = ...`): every column except `id` and `created_at`. -/
def editUpdate (location : String) (loc : GeoLoc) (sd ed : Option Date)
    (current forecast : Json) (r : WeatherQueryRec) : WeatherQueryRec :=
  { r with
    user_input := location
    normalized_name := some loc.name
    lat := loc.lat
    lon := loc.lon
    start_date := sd
    end_date := ed
    current_weather_json := some (json_dumps current)
    forecast_json := some (json_dumps forecast) }

/-- POST branch of `index` (`/`, the create flow).  Every client call sits
inside a `try/except` in the source, so this handler never returns
`.error`; `now` is the clock tick used for `created_at`. -/
def index_post (form : QueryForm) (geo : HttpOutcome (List GeoMatch))
    (api : WeatherApi) (apiKey : String) (now : Nat) (st : Store) :
    Except Exc HResult :=
  let location := pyStrip (form.location.getD "")
  if location = "" then
    .ok (st, [("Please enter a location.", "error")], .redirect .indexPage)
  else
    match parse_dates form.start_date form.end_date with
    | .error _ =>
      .ok (st, [("Invalid date format. Use YYYY-MM-DD.", "error")], .redirect .indexPage)
    | .ok (start_date, end_date) =>
      if datesOutOfOrder start_date end_date then
        .ok (st, [("Start date must be before end date.", "error")], .redirect .indexPage)
      else
        match (geocode_location apiKey geo).1 with
        | .error _ =>
          .ok (st, [("Error contacting geocoding service.", "error")], .redirect .indexPage)
        | .ok none =>
          .ok (st, [("Could not find that location. Try a more specific name.", "error")],
               .redirect .indexPage)
        | .ok (some loc) =>
          match (get_weather_and_forecast apiKey loc.lat loc.lon api).1 with
          | .error _ =>
            .ok (st, [("Error retrieving weather data.", "error")], .redirect .indexPage)
          | .ok (current, forecast) =>
            let query_obj : WeatherQueryRec :=
              createdRec location loc start_date end_date current forecast now st.nextId
            .ok ({ recs := st.recs ++ [query_obj], nextId := st.nextId + 1 },
                 [], .renderIndex (some current) (some forecast) (some query_obj))

/-- GET branch of `index`. -/
def index_get (st : Store) : Except Exc HResult :=
  .ok (st, [], .renderIndex none none none)

/-- `history` (`GET /history`). -/
def history (st : Store) : Except Exc HResult :=
  .ok (st, [], .renderHistory (sortByCreatedDesc st.recs))

/-- `json.loads(blob) if blob else None` in the detail view (an empty or
missing blob is falsy). -/
def loadBlob : Option String → Option Json
  | none => none
  | some s => if s = "" then none else some (json_loads s)

/-- `detail` (`GET /history/<id>`); `get_or_404`. -/
def detail (query_id : Nat) (st : Store) : Except Exc HResult :=
  match store_get st query_id with
  | none => .ok (st, [], .notFoundResp)
  | some q =>
    .ok (st, [], .renderDetail q (loadBlob q.current_weather_json) (loadBlob q.forecast_json))

/-- POST branch of `edit` (`/history/<id>/edit`).  Unlike `index`, the
source wraps neither `geocode_location` nor `get_weather_and_forecast` in a
`try/except`: a raised exception escapes the handler, modelled by `.error`. -/
def edit_post (query_id : Nat) (form : QueryForm) (geo : HttpOutcome (List GeoMatch))
    (api : WeatherApi) (apiKey : String) (st : Store) :
    Except Exc HResult :=
  match store_get st query_id with
  | none => .ok (st, [], .notFoundResp)
  | some q =>
    let location := pyStrip (form.location.getD "")
    if location = "" then
      .ok (st, [("Location cannot be empty.", "error")], .redirect (.editPage q.id))
    else
      match parse_dates form.start_date form.end_date with
      | .error _ =>
        .ok (st, [("Invalid date format.", "error")], .redirect (.editPage q.id))
      | .ok (start_date, end_date) =>
        if datesOutOfOrder start_date end_date then
          .ok (st, [("Start date must be before end date.", "error")], .redirect (.editPage q.id))
        else
          match (geocode_location apiKey geo).1 with
          | .error e => .error e
          | .ok none =>
            .ok (st, [("Could not find that location.", "error")], .redirect (.editPage q.id))
          | .ok (some loc) =>
            match (get_weather_and_forecast apiKey loc.lat loc.lon api).1 with
            | .error e => .error e
            | .ok (current, forecast) =>
              let st2 :=
                store_update st q.id (editUpdate location loc start_date end_date current forecast)
              .ok (st2, [("Record updated.", "success")], .redirect (.detailPage q.id))

/-- GET branch of `edit`: pre-filled form. -/
def edit_get (query_id : Nat) (st : Store) : Except Exc HResult :=
  match store_get st query_id with
  | none => .ok (st, [], .notFoundResp)
  | some q => .ok (st, [], .renderEdit q)

/-- `delete` (`POST /history/<id>/delete`); `get_or_404` then delete+commit. -/
def delete (query_id : Nat) (st : Store) : Except Exc HResult :=
  match store_get st query_id with
  | none => .ok (st, [], .notFoundResp)
  | some q =>
    .ok ({ st with recs := st.recs.filter (fun r => r.id != q.id) },
         [("Record deleted.", "success")], .redirect .historyPage)

/-- The JSON body of `POST /by-coords`, of which the handler reads only
`data.get("lat")` and `data.get("lon")`. -/
structure ByCoordsBody where
  lat : Option Rat
  lon : Option Rat
deriving Repr, DecidableEq

/-- `by_coords` (`POST /by-coords`).  No geocoding, no store access; the
fetch sits in a `try/except`.  The last component lists the external calls
issued. -/
def by_coords (body : ByCoordsBody) (api : WeatherApi) (apiKey : String) (st : Store) :
    Except Exc (HResult × List ApiCall) :=
  match body.lat, body.lon with
  | some lat, some lon =>
    match get_weather_and_forecast apiKey lat lon api with
    | (.error _, calls) => .ok ((st, [], .jsonError 500 "Weather API error"), calls)
    | (.ok (current, forecast), calls) => .ok ((st, [], .jsonCoords current forecast), calls)
  | _, _ => .ok ((st, [], .jsonError 400 "Missing coordinates"), [])

/-- One `/export/json` item for a row. -/
def exportItem (q : WeatherQueryRec) : ExportItem :=
  { id := q.id
    user_input := q.user_input
    normalized_name := q.normalized_name
    lat := q.lat
    lon := q.lon
    start_date := q.start_date.map formatDate
    end_date := q.end_date.map formatDate
    created_at := createdAtIso q.created_at }

/-- `csv.writer` renders `None` as the empty cell. -/
def csvCell : Option String → String
  | none => ""
  | some s => s

/-- The fixed CSV header row. -/
def csvHeader : List String :=
  ["id", "user_input", "normalized_name", "lat", "lon",
   "start_date", "end_date", "created_at"]

/-- One CSV data row for a record. -/
def csvRow (q : WeatherQueryRec) : List String :=
  [toString q.id, q.user_input, csvCell q.normalized_name,
   toString q.lat, toString q.lon,
   csvCell (q.start_date.map formatDate), csvCell (q.end_date.map formatDate),
   createdAtIso q.created_at]

/-- `export` (`GET /export/<fmt>`): rows in ascending creation order;
`json` and `csv` branches, anything else a 400 error payload. -/
def export_handler (fmt : String) (st : Store) : Except Exc HResult :=
  let queries := sortByCreatedAsc st.recs
  if fmt = "json" then
    .ok (st, [], .jsonExport (queries.map exportItem))
  else if fmt = "csv" then
    .ok (st, [], .csvExport (csvHeader :: queries.map csvRow))
  else
    .ok (st, [], .jsonError 400 "Unsupported format")

/-! ## Re-reading an export (for the round-trip claim) -/

/-- The fields recoverable from one structured-export item. -/
structure ReadBackRec where
  id : Nat
  user_input : String
  normalized_name : Option String
  lat : Rat
  lon : Rat
  start_date : Option Date
  end_date : Option Date
deriving Repr, DecidableEq

/-- Modelled from the spec: re-reading one item of the structured export
(the repository ships no import code).  Per the spec's round-trip property,
the reader recovers id, input, normalized name, coordinates and dates; the
date strings are parsed back with the application's own date format. -/
def readBackItem (i : ExportItem) : Except Unit ReadBackRec := do
  let sd ← parse_date i.start_date
  let ed ← parse_date i.end_date
  return { id := i.id
           user_input := i.user_input
           normalized_name := i.normalized_name
           lat := i.lat
           lon := i.lon
           start_date := sd
           end_date := ed }

/-! ## Claim-side predicates -/

/-- The failure condition enumerated by the create-flow claim: empty
location, malformed date, start after end, geocoding `NotFound`, or a
geocoding / weather-fetch error. -/
def createFailure (form : QueryForm) (geo : HttpOutcome (List GeoMatch))
    (api : WeatherApi) (apiKey : String) : Bool :=
  pyStrip (form.location.getD "") == "" ||
  match parse_dates form.start_date form.end_date with
  | .error _ => true
  | .ok (sd, ed) =>
    datesOutOfOrder sd ed ||
    match (geocode_location apiKey geo).1 with
    | .error _ => true
    | .ok none => true
    | .ok (some loc) =>
      match (get_weather_and_forecast apiKey loc.lat loc.lon api).1 with
      | .error _ => true
      | .ok _ => false

/-- The persisted invariant claimed for every stored row: when both dates
are present, `start_date <= end_date`. -/
def recInvariant (r : WeatherQueryRec) : Prop :=
  ∀ s e, r.start_date = some s → r.end_date = some e → dateLe s e = true

/-- All dates stored in a row were produced by `parse_date`, hence valid. -/
def recDatesValid (r : WeatherQueryRec) : Prop :=
  (∀ d, r.start_date = some d → validDate d = true) ∧
  (∀ d, r.end_date = some d → validDate d = true)

/-! ## Helper lemmas: digits and dates -/

theorem isDigit_digitChar (n : Nat) : (digitChar n).isDigit = true := by
  unfold digitChar
  have h : n % 10 < 10 := Nat.mod_lt _ (by norm_num)
  generalize n % 10 = k at h
  interval_cases k <;> decide

theorem digitVal_digitChar (n : Nat) : digitVal (digitChar n) = n % 10 := by
  unfold digitChar digitVal
  have h : n % 10 < 10 := Nat.mod_lt _ (by norm_num)
  generalize n % 10 = k at h
  interval_cases k <;> decide

theorem daysInMonth_le_31 (y m : Nat) : daysInMonth y m ≤ 31 := by
  unfold daysInMonth
  split_ifs <;> omega

theorem dateLe_of_not_dateLt {a b : Date} (h : dateLt b a = false) : dateLe a b = true := by
  simp only [dateLt, dateLe, Bool.or_eq_false_iff, Bool.or_eq_true, Bool.and_eq_true,
    Bool.and_eq_false_iff, beq_iff_eq, decide_eq_true_eq, decide_eq_false_iff_not,
    beq_eq_false_iff_ne, ne_eq] at *
  omega

theorem data_mk (l : List Char) : (String.mk l).data = l := rfl

theorem formatDate_ne_empty (d : Date) : formatDate d ≠ "" := by
  intro h
  have := congrArg String.data h
  simp [formatDate, pad4, pad2, data_mk] at this

/-- Round trip at the heart of the export round-trip claim: parsing back a
formatted valid date recovers the date. -/
theorem strptimeDate_formatDate (dt : Date) (h : validDate dt = true) :
    strptimeDate (formatDate dt) = some dt := by
  obtain ⟨y, m, d⟩ := dt
  simp only [validDate, Bool.and_eq_true, decide_eq_true_eq] at h
  obtain ⟨⟨⟨⟨⟨hy1, hy2⟩, hm1⟩, hm2⟩, hd1⟩, hd2⟩ := h
  have hdm : daysInMonth y m ≤ 31 := daysInMonth_le_31 y m
  simp only [formatDate, pad4, pad2, List.cons_append, List.nil_append]
  simp only [strptimeDate, data_mk, isDigit_digitChar, digitVal_digitChar,
    Bool.and_self, Bool.true_and, beq_self_eq_true, Bool.and_true, if_true]
  have hy : y / 1000 % 10 * 1000 + y / 100 % 10 * 100 + y / 10 % 10 * 10 + y % 10 = y := by
    omega
  have hm : m / 10 % 10 * 10 + m % 10 = m := by omega
  have hd : d / 10 % 10 * 10 + d % 10 = d := by omega
  simp only [matchNum2, isDigit_digitChar, digitVal_digitChar, Bool.and_self, hy, hm, hd]
  have hmm : (1 ≤ m && m ≤ 12) = true := by simp [hm1, hm2]
  have hdd : (1 ≤ d && d ≤ 31) = true := by simp [hd1, Nat.le_trans hd2 hdm]
  rw [if_pos hmm]
  simp only [beq_self_eq_true, if_true, isDigit_digitChar, digitVal_digitChar,
    Bool.and_self, hd]
  rw [if_pos hdd]
  have hyy : (1 ≤ y && d ≤ daysInMonth y m) = true := by simp [hy1, hd2]
  simp only [hyy, if_true]

/-- Parsing back the string rendering of a stored valid date. -/
theorem parse_date_formatDate (dt : Date) (h : validDate dt = true) :
    parse_date (some (formatDate dt)) = .ok (some dt) := by
  simp only [parse_date, if_neg (formatDate_ne_empty dt), strptimeDate_formatDate dt h]

/-! ## Helper lemmas: the store -/

theorem find?_map_update (l : List WeatherQueryRec) (i : Nat)
    (f : WeatherQueryRec → WeatherQueryRec) (hf : ∀ r, (f r).id = r.id) :
    (l.map (fun r => if r.id = i then f r else r)).find? (fun r => r.id == i) =
      (l.find? (fun r => r.id == i)).map (fun r => if r.id = i then f r else r) := by
  induction l with
  | nil => rfl
  | cons a l ih =>
    by_cases h : a.id = i
    · simp [List.find?, h, hf a]
    · have hb : (a.id == i) = false := by simp [h]
      simp [List.find?, h, hb, ih]

theorem store_get_update (st : Store) (i : Nat)
    (f : WeatherQueryRec → WeatherQueryRec) (hf : ∀ r, (f r).id = r.id) :
    store_get (store_update st i f) i = (store_get st i).map f := by
  unfold store_get store_update
  rw [find?_map_update _ _ _ hf]
  cases hfind : st.recs.find? (fun r => r.id == i) with
  | none => rfl
  | some r =>
    have : r.id = i := by
      have := List.find?_some hfind
      simpa using this
    simp [this]

theorem mem_store_update_of_ne {st : Store} {r : WeatherQueryRec} {i : Nat}
    (f : WeatherQueryRec → WeatherQueryRec) (hr : r ∈ st.recs) (hne : r.id ≠ i) :
    r ∈ (store_update st i f).recs := by
  have h := List.mem_map_of_mem (fun r => if r.id = i then f r else r) hr
  simpa [store_update, if_neg hne] using h

/-! ## Helper lemmas: the create flow -/

theorem index_post_emptyLoc {form : QueryForm} (geo : HttpOutcome (List GeoMatch))
    (api : WeatherApi) (apiKey : String) (now : Nat) (st : Store)
    (h : pyStrip (form.location.getD "") = "") :
    index_post form geo api apiKey now st =
      .ok (st, [("Please enter a location.", "error")], .redirect .indexPage) := by
  simp [index_post, h]

theorem index_post_badDate {form : QueryForm} (geo : HttpOutcome (List GeoMatch))
    (api : WeatherApi) (apiKey : String) (now : Nat) (st : Store)
    (hloc : pyStrip (form.location.getD "") ≠ "")
    (hpd : parse_dates form.start_date form.end_date = .error ()) :
    index_post form geo api apiKey now st =
      .ok (st, [("Invalid date format. Use YYYY-MM-DD.", "error")], .redirect .indexPage) := by
  simp [index_post, hloc, hpd]

theorem index_post_outOfOrder {form : QueryForm} (geo : HttpOutcome (List GeoMatch))
    (api : WeatherApi) (apiKey : String) (now : Nat) (st : Store) {sd ed : Option Date}
    (hloc : pyStrip (form.location.getD "") ≠ "")
    (hpd : parse_dates form.start_date form.end_date = .ok (sd, ed))
    (hord : datesOutOfOrder sd ed = true) :
    index_post form geo api apiKey now st =
      .ok (st, [("Start date must be before end date.", "error")], .redirect .indexPage) := by
  simp [index_post, hloc, hpd, hord]

theorem index_post_geoError {form : QueryForm} {geo : HttpOutcome (List GeoMatch)}
    (api : WeatherApi) {apiKey : String} (now : Nat) (st : Store) {sd ed : Option Date}
    {e : Exc}
    (hloc : pyStrip (form.location.getD "") ≠ "")
    (hpd : parse_dates form.start_date form.end_date = .ok (sd, ed))
    (hord : datesOutOfOrder sd ed = false)
    (hg : (geocode_location apiKey geo).1 = .error e) :
    index_post form geo api apiKey now st =
      .ok (st, [("Error contacting geocoding service.", "error")], .redirect .indexPage) := by
  simp [index_post, hloc, hpd, hord, hg]

theorem index_post_geoNone {form : QueryForm} {geo : HttpOutcome (List GeoMatch)}
    (api : WeatherApi) {apiKey : String} (now : Nat) (st : Store) {sd ed : Option Date}
    (hloc : pyStrip (form.location.getD "") ≠ "")
    (hpd : parse_dates form.start_date form.end_date = .ok (sd, ed))
    (hord : datesOutOfOrder sd ed = false)
    (hg : (geocode_location apiKey geo).1 = .ok none) :
    index_post form geo api apiKey now st =
      .ok (st, [("Could not find that location. Try a more specific name.", "error")],
           .redirect .indexPage) := by
  simp [index_post, hloc, hpd, hord, hg]

theorem index_post_weatherError {form : QueryForm} {geo : HttpOutcome (List GeoMatch)}
    {api : WeatherApi} {apiKey : String} (now : Nat) (st : Store) {sd ed : Option Date}
    {loc : GeoLoc} {e : Exc}
    (hloc : pyStrip (form.location.getD "") ≠ "")
    (hpd : parse_dates form.start_date form.end_date = .ok (sd, ed))
    (hord : datesOutOfOrder sd ed = false)
    (hg : (geocode_location apiKey geo).1 = .ok (some loc))
    (hw : (get_weather_and_forecast apiKey loc.lat loc.lon api).1 = .error e) :
    index_post form geo api apiKey now st =
      .ok (st, [("Error retrieving weather data.", "error")], .redirect .indexPage) := by
  simp [index_post, hloc, hpd, hord, hg, hw]

theorem index_post_success {form : QueryForm} {geo : HttpOutcome (List GeoMatch)}
    {api : WeatherApi} {apiKey : String} (now : Nat) (st : Store) {sd ed : Option Date}
    {loc : GeoLoc} {current forecast : Json}
    (hloc : pyStrip (form.location.getD "") ≠ "")
    (hpd : parse_dates form.start_date form.end_date = .ok (sd, ed))
    (hord : datesOutOfOrder sd ed = false)
    (hg : (geocode_location apiKey geo).1 = .ok (some loc))
    (hw : (get_weather_and_forecast apiKey loc.lat loc.lon api).1 = .ok (current, forecast)) :
    index_post form geo api apiKey now st =
      .ok ({ recs := st.recs ++
               [createdRec (pyStrip (form.location.getD "")) loc sd ed current forecast now st.nextId],
             nextId := st.nextId + 1 },
           [], .renderIndex (some current) (some forecast)
             (some (createdRec (pyStrip (form.location.getD "")) loc sd ed current forecast now
               st.nextId))) := by
  simp [index_post, hloc, hpd, hord, hg, hw]

/-- Two equal `.ok` handler results have equal stores. -/
theorem ok_store_eq {st1 st2 : Store} {f1 f2 : List Flash} {r1 r2 : Resp}
    (h : (Except.ok (st1, f1, r1) : Except Exc HResult) = .ok (st2, f2, r2)) :
    st2 = st1 := by
  injection h with h'
  exact (congrArg Prod.fst h').symm

/-- Every `.ok` result of the create flow leaves the store unchanged or
appends exactly the one row built from the resolved data, with the
out-of-order guard passed. -/
theorem index_post_store_shape {form : QueryForm} {geo : HttpOutcome (List GeoMatch)}
    {api : WeatherApi} {apiKey : String} {now : Nat} {st st' : Store}
    {fl : List Flash} {rsp : Resp}
    (h : index_post form geo api apiKey now st = .ok (st', fl, rsp)) :
    st' = st ∨
    ∃ sd ed loc current forecast,
      datesOutOfOrder sd ed = false ∧
      parse_dates form.start_date form.end_date = .ok (sd, ed) ∧
      st' = { recs := st.recs ++
                [createdRec (pyStrip (form.location.getD "")) loc sd ed current forecast now st.nextId],
              nextId := st.nextId + 1 } := by
  by_cases hloc : pyStrip (form.location.getD "") = ""
  · rw [index_post_emptyLoc geo api apiKey now st hloc] at h
    exact Or.inl (ok_store_eq h)
  rcases hpd : parse_dates form.start_date form.end_date with u | ⟨sd, ed⟩
  · obtain rfl : u = () := rfl
    rw [index_post_badDate geo api apiKey now st hloc hpd] at h
    exact Or.inl (ok_store_eq h)
  rcases hord : datesOutOfOrder sd ed with _ | _
  · rcases hg : (geocode_location apiKey geo).1 with e | _ | loc
    · rw [index_post_geoError api now st hloc hpd hord hg] at h
      exact Or.inl (ok_store_eq h)
    · rw [index_post_geoNone api now st hloc hpd hord hg] at h
      exact Or.inl (ok_store_eq h)
    · rcases hw : (get_weather_and_forecast apiKey loc.lat loc.lon api).1 with e | ⟨current, forecast⟩
      · rw [index_post_weatherError now st hloc hpd hord hg hw] at h
        exact Or.inl (ok_store_eq h)
      · rw [index_post_success now st hloc hpd hord hg hw] at h
        exact Or.inr ⟨sd, ed, loc, current, forecast, hord, rfl, ok_store_eq h⟩
  · rw [index_post_outOfOrder geo api apiKey now st hloc hpd hord] at h
    exact Or.inl (ok_store_eq h)

/-- The create flow never lets an exception escape: every client call is
wrapped in a `try/except`. -/
theorem index_post_isOk (form : QueryForm) (geo : HttpOutcome (List GeoMatch))
    (api : WeatherApi) (apiKey : String) (now : Nat) (st : Store) :
    (index_post form geo api apiKey now st).isOk = true := by
  by_cases hloc : pyStrip (form.location.getD "") = ""
  · rw [index_post_emptyLoc geo api apiKey now st hloc]; rfl
  rcases hpd : parse_dates form.start_date form.end_date with u | ⟨sd, ed⟩
  · obtain rfl : u = () := rfl
    rw [index_post_badDate geo api apiKey now st hloc hpd]; rfl
  rcases hord : datesOutOfOrder sd ed with _ | _
  · rcases hg : (geocode_location apiKey geo).1 with e | _ | loc
    · rw [index_post_geoError api now st hloc hpd hord hg]; rfl
    · rw [index_post_geoNone api now st hloc hpd hord hg]; rfl
    · rcases hw : (get_weather_and_forecast apiKey loc.lat loc.lon api).1 with e | ⟨current, forecast⟩
      · rw [index_post_weatherError now st hloc hpd hord hg hw]; rfl
      · rw [index_post_success now st hloc hpd hord hg hw]; rfl
  · rw [index_post_outOfOrder geo api apiKey now st hloc hpd hord]; rfl

/-! ## Helper lemmas: the edit flow -/

theorem edit_post_notFound {query_id : Nat} (form : QueryForm)
    (geo : HttpOutcome (List GeoMatch)) (api : WeatherApi) (apiKey : String) {st : Store}
    (h : store_get st query_id = none) :
    edit_post query_id form geo api apiKey st = .ok (st, [], .notFoundResp) := by
  simp [edit_post, h]

theorem edit_post_emptyLoc {query_id : Nat} {form : QueryForm}
    (geo : HttpOutcome (List GeoMatch)) (api : WeatherApi) (apiKey : String)
    {st : Store} {q : WeatherQueryRec}
    (hq : store_get st query_id = some q)
    (h : pyStrip (form.location.getD "") = "") :
    edit_post query_id form geo api apiKey st =
      .ok (st, [("Location cannot be empty.", "error")], .redirect (.editPage q.id)) := by
  simp [edit_post, hq, h]

theorem edit_post_badDate {query_id : Nat} {form : QueryForm}
    (geo : HttpOutcome (List GeoMatch)) (api : WeatherApi) (apiKey : String)
    {st : Store} {q : WeatherQueryRec}
    (hq : store_get st query_id = some q)
    (hloc : pyStrip (form.location.getD "") ≠ "")
    (hpd : parse_dates form.start_date form.end_date = .error ()) :
    edit_post query_id form geo api apiKey st =
      .ok (st, [("Invalid date format.", "error")], .redirect (.editPage q.id)) := by
  simp [edit_post, hq, hloc, hpd]

theorem edit_post_outOfOrder {query_id : Nat} {form : QueryForm}
    (geo : HttpOutcome (List GeoMatch)) (api : WeatherApi) (apiKey : String)
    {st : Store} {q : WeatherQueryRec} {sd ed : Option Date}
    (hq : store_get st query_id = some q)
    (hloc : pyStrip (form.location.getD "") ≠ "")
    (hpd : parse_dates form.start_date form.end_date = .ok (sd, ed))
    (hord : datesOutOfOrder sd ed = true) :
    edit_post query_id form geo api apiKey st =
      .ok (st, [("Start date must be before end date.", "error")], .redirect (.editPage q.id)) := by
  simp [edit_post, hq, hloc, hpd, hord]

/-- The unguarded `geocode_location` call of the edit flow: a raised
exception escapes the handler unconverted. -/
theorem edit_post_geoError {query_id : Nat} {form : QueryForm}
    {geo : HttpOutcome (List GeoMatch)} (api : WeatherApi) {apiKey : String}
    {st : Store} {q : WeatherQueryRec} {sd ed : Option Date} {e : Exc}
    (hq : store_get st query_id = some q)
    (hloc : pyStrip (form.location.getD "") ≠ "")
    (hpd : parse_dates form.start_date form.end_date = .ok (sd, ed))
    (hord : datesOutOfOrder sd ed = false)
    (hg : (geocode_location apiKey geo).1 = .error e) :
    edit_post query_id form geo api apiKey st = .error e := by
  simp [edit_post, hq, hloc, hpd, hord, hg]

theorem edit_post_geoNone {query_id : Nat} {form : QueryForm}
    {geo : HttpOutcome (List GeoMatch)} (api : WeatherApi) {apiKey : String}
    {st : Store} {q : WeatherQueryRec} {sd ed : Option Date}
    (hq : store_get st query_id = some q)
    (hloc : pyStrip (form.location.getD "") ≠ "")
    (hpd : parse_dates form.start_date form.end_date = .ok (sd, ed))
    (hord : datesOutOfOrder sd ed = false)
    (hg : (geocode_location apiKey geo).1 = .ok none) :
    edit_post query_id form geo api apiKey st =
      .ok (st, [("Could not find that location.", "error")], .redirect (.editPage q.id)) := by
  simp [edit_post, hq, hloc, hpd, hord, hg]

/-- The unguarded `get_weather_and_forecast` call of the edit flow: a raised
exception escapes the handler unconverted. -/
theorem edit_post_weatherError {query_id : Nat} {form : QueryForm}
    {geo : HttpOutcome (List GeoMatch)} {api : WeatherApi} {apiKey : String}
    {st : Store} {q : WeatherQueryRec} {sd ed : Option Date} {loc : GeoLoc} {e : Exc}
    (hq : store_get st query_id = some q)
    (hloc : pyStrip (form.location.getD "") ≠ "")
    (hpd : parse_dates form.start_date form.end_date = .ok (sd, ed))
    (hord : datesOutOfOrder sd ed = false)
    (hg : (geocode_location apiKey geo).1 = .ok (some loc))
    (hw : (get_weather_and_forecast apiKey loc.lat loc.lon api).1 = .error e) :
    edit_post query_id form geo api apiKey st = .error e := by
  simp [edit_post, hq, hloc, hpd, hord, hg, hw]

theorem edit_post_success {query_id : Nat} {form : QueryForm}
    {geo : HttpOutcome (List GeoMatch)} {api : WeatherApi} {apiKey : String}
    {st : Store} {q : WeatherQueryRec} {sd ed : Option Date} {loc : GeoLoc}
    {current forecast : Json}
    (hq : store_get st query_id = some q)
    (hloc : pyStrip (form.location.getD "") ≠ "")
    (hpd : parse_dates form.start_date form.end_date = .ok (sd, ed))
    (hord : datesOutOfOrder sd ed = false)
    (hg : (geocode_location apiKey geo).1 = .ok (some loc))
    (hw : (get_weather_and_forecast apiKey loc.lat loc.lon api).1 = .ok (current, forecast)) :
    edit_post query_id form geo api apiKey st =
      .ok (store_update st q.id
             (editUpdate (pyStrip (form.location.getD "")) loc sd ed current forecast),
           [("Record updated.", "success")], .redirect (.detailPage q.id)) := by
  simp [edit_post, hq, hloc, hpd, hord, hg, hw]

/-- Every `.ok` result of the edit flow leaves the store unchanged or
updates exactly the fetched row through `editUpdate`, with the out-of-order
guard passed. -/
theorem edit_post_store_shape {query_id : Nat} {form : QueryForm}
    {geo : HttpOutcome (List GeoMatch)} {api : WeatherApi} {apiKey : String}
    {st st' : Store} {fl : List Flash} {rsp : Resp}
    (h : edit_post query_id form geo api apiKey st = .ok (st', fl, rsp)) :
    st' = st ∨
    ∃ q sd ed loc current forecast,
      store_get st query_id = some q ∧
      datesOutOfOrder sd ed = false ∧
      parse_dates form.start_date form.end_date = .ok (sd, ed) ∧
      st' = store_update st q.id
              (editUpdate (pyStrip (form.location.getD "")) loc sd ed current forecast) := by
  rcases hq : store_get st query_id with _ | q
  · rw [edit_post_notFound form geo api apiKey hq] at h
    exact Or.inl (ok_store_eq h)
  by_cases hloc : pyStrip (form.location.getD "") = ""
  · rw [edit_post_emptyLoc geo api apiKey hq hloc] at h
    exact Or.inl (ok_store_eq h)
  rcases hpd : parse_dates form.start_date form.end_date with u | ⟨sd, ed⟩
  · obtain rfl : u = () := rfl
    rw [edit_post_badDate geo api apiKey hq hloc hpd] at h
    exact Or.inl (ok_store_eq h)
  rcases hord : datesOutOfOrder sd ed with _ | _
  · rcases hg : (geocode_location apiKey geo).1 with e | _ | loc
    · rw [edit_post_geoError api hq hloc hpd hord hg] at h
      exact absurd h (by simp)
    · rw [edit_post_geoNone api hq hloc hpd hord hg] at h
      exact Or.inl (ok_store_eq h)
    · rcases hw : (get_weather_and_forecast apiKey loc.lat loc.lon api).1 with e | ⟨current, forecast⟩
      · rw [edit_post_weatherError hq hloc hpd hord hg hw] at h
        exact absurd h (by simp)
      · rw [edit_post_success hq hloc hpd hord hg hw] at h
        exact Or.inr ⟨q, sd, ed, loc, current, forecast, rfl, hord, rfl, ok_store_eq h⟩
  · rw [edit_post_outOfOrder geo api apiKey hq hloc hpd hord] at h
    exact Or.inl (ok_store_eq h)

/-- No code path of the weather client issues the geocoding call. -/
theorem geocodeCall_not_in_weather (apiKey : String) (lat lon : Rat) (api : WeatherApi) :
    ApiCall.geocodeCall ∉ (get_weather_and_forecast apiKey lat lon api).2 := by
  by_cases hk : apiKey = "" <;>
    rcases hc : api.current with c | e <;>
      rcases hf : api.forecast with f | e' <;>
        simp [get_weather_and_forecast, hk, hc, hf]

/-! ## The claims -/

/-- Claim C4: the weather fetch returns a `{current, forecast}` pair only
when both calls succeed; when the current-conditions call fails the
forecast call is never issued; when either call fails the whole operation
fails with no partial result. -/
theorem claim_C4 (apiKey : String) (lat lon : Rat) (api : WeatherApi) :
    (∀ current forecast,
       (get_weather_and_forecast apiKey lat lon api).1 = .ok (current, forecast) →
       apiKey ≠ "" ∧ api.current = .success current ∧ api.forecast = .success forecast) ∧
    (∀ e, api.current = .failure e → apiKey ≠ "" →
       get_weather_and_forecast apiKey lat lon api =
         (.error (.requestExc e), [.currentCall])) ∧
    (∀ e current, api.current = .success current → api.forecast = .failure e → apiKey ≠ "" →
       get_weather_and_forecast apiKey lat lon api =
         (.error (.requestExc e), [.currentCall, .forecastCall])) := by
  refine ⟨?_, ?_, ?_⟩
  · intro current forecast h
    by_cases hk : apiKey = ""
    · simp [get_weather_and_forecast, hk] at h
    · rcases hc : api.current with c | e
      · rcases hf : api.forecast with f | e'
        · simp [get_weather_and_forecast, hk, hc, hf] at h
          obtain ⟨rfl, rfl⟩ := h
          exact ⟨hk, rfl, rfl⟩
        · simp [get_weather_and_forecast, hk, hc, hf] at h
      · simp [get_weather_and_forecast, hk, hc] at h
  · intro e hc hk
    simp [get_weather_and_forecast, hk, hc]
  · intro e current hc hf hk
    simp [get_weather_and_forecast, hk, hc, hf]

/-- Witness for C4 at a concrete input: current-conditions times out, so the
fetch fails and only the current call was issued. -/
theorem claim_C4_witness :
    get_weather_and_forecast "k" 1 2 ⟨.failure .timeout, .success "fc"⟩ =
      (.error (.requestExc .timeout), [.currentCall]) :=
  (claim_C4 "k" 1 2 ⟨.failure .timeout, .success "fc"⟩).2.1 .timeout rfl (by decide)

/-- Claim C9: with no API credential configured both clients fail fast with
the configuration error before issuing any external call (empty call log),
and the credential is resolved from the environment with a fallback
default. -/
theorem claim_C9 :
    (∀ resp : HttpOutcome (List GeoMatch),
       geocode_location "" resp =
         (.error (.runtimeError "OPENWEATHER_API_KEY is not set"), [])) ∧
    (∀ (lat lon : Rat) (api : WeatherApi),
       get_weather_and_forecast "" lat lon api =
         (.error (.runtimeError "OPENWEATHER_API_KEY is not set"), [])) ∧
    resolve_api_key none = defaultApiKey ∧
    (∀ s, resolve_api_key (some s) = s) := by
  refine ⟨fun resp => ?_, fun lat lon api => ?_, rfl, fun s => rfl⟩
  · simp [geocode_location]
  · simp [get_weather_and_forecast]

/-- Claim C10: every successful geocoding resolution with at least one match
names the result `"<city>, <country>"` from the first match's fields, the
absent fields rendering as Python's `str(None)` (`"None"`). -/
theorem claim_C10 (apiKey : String) (loc : GeoMatch) (rest : List GeoMatch)
    (hkey : apiKey ≠ "") :
    (geocode_location apiKey (.success (loc :: rest))).1 =
      .ok (some { name := pyStr loc.name ++ ", " ++ pyStr loc.country,
                  lat := loc.lat, lon := loc.lon }) := by
  simp [geocode_location, hkey]

/-- Witness for C10 at a concrete input in which the city-name field is
absent: the name renders as `"None, FR"`. -/
theorem claim_C10_witness :
    (geocode_location "k" (.success [{ name := none, country := some "FR",
                                       lat := 1, lon := 2 }])).1 =
      .ok (some { name := "None, FR", lat := 1, lon := 2 }) :=
  claim_C10 "k" { name := none, country := some "FR", lat := 1, lon := 2 } []
    (by decide)

/-- Claim C8: the coordinate-only lookup returns a 400 error payload and
attempts no fetch when a coordinate is missing, a 500 error payload when
the fetch fails, the `{current, forecast}` payload when it succeeds; it
never geocodes and never touches the store. -/
theorem claim_C8 (body : ByCoordsBody) (api : WeatherApi) (apiKey : String) (st : Store) :
    (body.lat = none ∨ body.lon = none →
       by_coords body api apiKey st =
         .ok ((st, [], .jsonError 400 "Missing coordinates"), [])) ∧
    (∀ lat lon e, body.lat = some lat → body.lon = some lon →
       (get_weather_and_forecast apiKey lat lon api).1 = .error e →
       by_coords body api apiKey st =
         .ok ((st, [], .jsonError 500 "Weather API error"),
              (get_weather_and_forecast apiKey lat lon api).2)) ∧
    (∀ lat lon current forecast, body.lat = some lat → body.lon = some lon →
       (get_weather_and_forecast apiKey lat lon api).1 = .ok (current, forecast) →
       by_coords body api apiKey st =
         .ok ((st, [], .jsonCoords current forecast),
              (get_weather_and_forecast apiKey lat lon api).2)) ∧
    (∀ res calls, by_coords body api apiKey st = .ok (res, calls) →
       res.1 = st ∧ ApiCall.geocodeCall ∉ calls) := by
  obtain ⟨blat, blon⟩ := body
  refine ⟨?_, ?_, ?_, ?_⟩
  · rintro (rfl | rfl)
    · rfl
    · cases blat <;> rfl
  · rintro lat lon e rfl rfl hw
    simp only [by_coords]
    rcases hfull : get_weather_and_forecast apiKey lat lon api with ⟨res, calls⟩
    rw [hfull] at hw
    simp only at hw
    rw [hw]
  · rintro lat lon current forecast rfl rfl hw
    simp only [by_coords]
    rcases hfull : get_weather_and_forecast apiKey lat lon api with ⟨res, calls⟩
    rw [hfull] at hw
    simp only at hw
    rw [hw]
  · intro res calls h
    rcases blat with _ | lat
    · simp only [by_coords] at h
      injection h with h'
      refine ⟨(congrArg (fun x => x.1.1) h').symm, ?_⟩
      have : calls = ([] : List ApiCall) := (congrArg Prod.snd h').symm
      simp [this]
    · rcases blon with _ | lon
      · simp only [by_coords] at h
        injection h with h'
        refine ⟨(congrArg (fun x => x.1.1) h').symm, ?_⟩
        have : calls = ([] : List ApiCall) := (congrArg Prod.snd h').symm
        simp [this]
      · simp only [by_coords] at h
        rcases hfull : get_weather_and_forecast apiKey lat lon api with ⟨r, cs⟩
        rw [hfull] at h
        have hcs : ApiCall.geocodeCall ∉ cs := by
          have := geocodeCall_not_in_weather apiKey lat lon api
          rw [hfull] at this
          exact this
        rcases r with e | ⟨c, f⟩
        · simp only at h
          injection h with h'
          refine ⟨(congrArg (fun x => x.1.1) h').symm, ?_⟩
          have : calls = cs := (congrArg Prod.snd h').symm
          rw [this]; exact hcs
        · simp only at h
          injection h with h'
          refine ⟨(congrArg (fun x => x.1.1) h').symm, ?_⟩
          have : calls = cs := (congrArg Prod.snd h').symm
          rw [this]; exact hcs

/-- Witness for C8 at a concrete input: body `{"lat": 48.85}` without `lon`
gives the 400 payload with no call issued. -/
theorem claim_C8_witness :
    by_coords ⟨some ((4885 : Rat) / 100), none⟩ ⟨.success "c", .success "f"⟩ "k" ⟨[], 1⟩ =
      .ok ((⟨[], 1⟩, [], .jsonError 400 "Missing coordinates"), []) :=
  (claim_C8 ⟨some ((4885 : Rat) / 100), none⟩ ⟨.success "c", .success "f"⟩ "k" ⟨[], 1⟩).1
    (Or.inr rfl)

/-- Claim C2: a POST to the create flow writes no record and returns an
error indicator (an `"error"` flash and a redirect) whenever any step
fails — empty location, malformed date, start after end, geocoding
`NotFound`, geocoding or weather-fetch error — and appends exactly one
record when every step succeeds. -/
theorem claim_C2 (form : QueryForm) (geo : HttpOutcome (List GeoMatch)) (api : WeatherApi)
    (apiKey : String) (now : Nat) (st : Store) :
    (createFailure form geo api apiKey = true →
       ∃ msg, index_post form geo api apiKey now st =
         .ok (st, [(msg, "error")], .redirect .indexPage)) ∧
    (createFailure form geo api apiKey = false →
       ∃ loc sd ed current forecast,
         index_post form geo api apiKey now st =
           .ok ({ recs := st.recs ++
                    [createdRec (pyStrip (form.location.getD "")) loc sd ed current forecast now
                      st.nextId],
                  nextId := st.nextId + 1 },
                [], .renderIndex (some current) (some forecast)
                  (some (createdRec (pyStrip (form.location.getD "")) loc sd ed current forecast
                    now st.nextId)))) := by
  by_cases hloc : pyStrip (form.location.getD "") = ""
  · refine ⟨fun _ => ⟨_, index_post_emptyLoc geo api apiKey now st hloc⟩, fun hf => ?_⟩
    exfalso
    simp [createFailure, hloc] at hf
  rcases hpd : parse_dates form.start_date form.end_date with u | ⟨sd, ed⟩
  · obtain rfl : u = () := rfl
    refine ⟨fun _ => ⟨_, index_post_badDate geo api apiKey now st hloc hpd⟩, fun hf => ?_⟩
    exfalso
    simp [createFailure, hloc, hpd] at hf
  rcases hord : datesOutOfOrder sd ed with _ | _
  · rcases hg : (geocode_location apiKey geo).1 with e | _ | loc
    · refine ⟨fun _ => ⟨_, index_post_geoError api now st hloc hpd hord hg⟩, fun hf => ?_⟩
      exfalso
      simp [createFailure, hloc, hpd, hord, hg] at hf
    · refine ⟨fun _ => ⟨_, index_post_geoNone api now st hloc hpd hord hg⟩, fun hf => ?_⟩
      exfalso
      simp [createFailure, hloc, hpd, hord, hg] at hf
    · rcases hw : (get_weather_and_forecast apiKey loc.lat loc.lon api).1 with e | ⟨current, forecast⟩
      · refine ⟨fun _ => ⟨_, index_post_weatherError now st hloc hpd hord hg hw⟩, fun hf => ?_⟩
        exfalso
        simp [createFailure, hloc, hpd, hord, hg, hw] at hf
      · refine ⟨fun hf => ?_, fun _ =>
          ⟨loc, sd, ed, current, forecast, index_post_success now st hloc hpd hord hg hw⟩⟩
        exfalso
        simp [createFailure, hloc, hpd, hord, hg, hw] at hf
  · refine ⟨fun _ => ⟨_, index_post_outOfOrder geo api apiKey now st hloc hpd hord⟩, fun hf => ?_⟩
    exfalso
    simp [createFailure, hloc, hpd, hord] at hf

/-- Witness for C2 at a concrete input: a create submission with an empty
location leaves the (empty) store unchanged and flashes an error. -/
theorem claim_C2_witness :
    createFailure ⟨some "", none, none⟩ (.success []) ⟨.success "c", .success "f"⟩ "k" = true ∧
    ∃ msg, index_post ⟨some "", none, none⟩ (.success []) ⟨.success "c", .success "f"⟩ "k" 0 ⟨[], 1⟩ =
      .ok (⟨[], 1⟩, [(msg, "error")], .redirect .indexPage) :=
  ⟨by decide,
   (claim_C2 ⟨some "", none, none⟩ (.success []) ⟨.success "c", .success "f"⟩ "k" 0 ⟨[], 1⟩).1
     (by decide)⟩

/-- Claim C3: the invariant `start_date <= end_date` (when both are
present) is preserved by every write of the create and edit flows, and a
submission to either flow with both dates supplied out of order is rejected
with a validation error before any write. -/
theorem claim_C3 :
    (∀ form geo api apiKey now st st' fl rsp,
       (∀ r ∈ st.recs, recInvariant r) →
       index_post form geo api apiKey now st = .ok (st', fl, rsp) →
       ∀ r ∈ st'.recs, recInvariant r) ∧
    (∀ query_id form geo api apiKey st st' fl rsp,
       (∀ r ∈ st.recs, recInvariant r) →
       edit_post query_id form geo api apiKey st = .ok (st', fl, rsp) →
       ∀ r ∈ st'.recs, recInvariant r) ∧
    (∀ form geo api apiKey now st s e,
       pyStrip (form.location.getD "") ≠ "" →
       parse_dates form.start_date form.end_date = .ok (some s, some e) →
       dateLt e s = true →
       index_post form geo api apiKey now st =
         .ok (st, [("Start date must be before end date.", "error")], .redirect .indexPage)) ∧
    (∀ query_id form geo api apiKey st q s e,
       store_get st query_id = some q →
       pyStrip (form.location.getD "") ≠ "" →
       parse_dates form.start_date form.end_date = .ok (some s, some e) →
       dateLt e s = true →
       edit_post query_id form geo api apiKey st =
         .ok (st, [("Start date must be before end date.", "error")],
              .redirect (.editPage q.id))) := by
  have hnew : ∀ (sd ed : Option Date), datesOutOfOrder sd ed = false →
      ∀ s e, sd = some s → ed = some e → dateLe s e = true := by
    rintro sd ed hord s e rfl rfl
    simp only [datesOutOfOrder] at hord
    exact dateLe_of_not_dateLt hord
  refine ⟨?_, ?_, ?_, ?_⟩
  · intro form geo api apiKey now st st' fl rsp hinv h
    rcases index_post_store_shape h with rfl | ⟨sd, ed, loc, current, forecast, hord, _, rfl⟩
    · exact hinv
    · intro r hr
      rcases List.mem_append.mp hr with hr | hr
      · exact hinv r hr
      · rcases List.mem_singleton.mp hr with rfl
        intro s e hs he
        exact hnew sd ed hord s e (by simpa [createdRec] using hs) (by simpa [createdRec] using he)
  · intro query_id form geo api apiKey st st' fl rsp hinv h
    rcases edit_post_store_shape h with rfl | ⟨q, sd, ed, loc, current, forecast, _, hord, _, rfl⟩
    · exact hinv
    · intro r hr
      simp only [store_update] at hr
      rcases List.mem_map.mp hr with ⟨x, hx, rfl⟩
      by_cases hid : x.id = q.id
      · rw [if_pos hid]
        intro s e hs he
        exact hnew sd ed hord s e (by simpa [editUpdate] using hs) (by simpa [editUpdate] using he)
      · rw [if_neg hid]
        exact hinv x hx
  · intro form geo api apiKey now st s e hloc hpd hlt
    exact index_post_outOfOrder geo api apiKey now st hloc hpd (by simp [datesOutOfOrder, hlt])
  · intro query_id form geo api apiKey st q s e hq hloc hpd hlt
    exact edit_post_outOfOrder geo api apiKey hq hloc hpd (by simp [datesOutOfOrder, hlt])

/-- Witness for C3 at a concrete input: a create submission with
`start_date = 2024-01-05 > end_date = 2024-01-01` is rejected and the empty
store stays empty. -/
theorem claim_C3_witness :
    index_post ⟨some "Paris", some "2024-01-05", some "2024-01-01"⟩ (.success [])
        ⟨.success "c", .success "f"⟩ "k" 0 ⟨[], 1⟩ =
      .ok (⟨[], 1⟩, [("Start date must be before end date.", "error")], .redirect .indexPage) :=
  claim_C3.2.2.1 ⟨some "Paris", some "2024-01-05", some "2024-01-01"⟩ (.success [])
    ⟨.success "c", .success "f"⟩ "k" 0 ⟨[], 1⟩ ⟨2024, 1, 5⟩ ⟨2024, 1, 1⟩
    (by decide) rfl (by decide)

/-- A fetched row's id equals the key it was fetched by. -/
theorem store_get_id {st : Store} {i : Nat} {q : WeatherQueryRec}
    (h : store_get st i = some q) : q.id = i := by
  have := List.find?_some h
  simpa using this

/-- Claim C5: a successful POST edit overwrites `user_input`,
`normalized_name`, `lat`, `lon`, `start_date`, `end_date` and replaces both
JSON blobs with the payloads fetched during this edit, while `id` and
`created_at` are unchanged and every other row is untouched. -/
theorem claim_C5 {query_id : Nat} {form : QueryForm} {geo : HttpOutcome (List GeoMatch)}
    {api : WeatherApi} {apiKey : String} {st : Store} {q : WeatherQueryRec}
    {sd ed : Option Date} {loc : GeoLoc} {current forecast : Json}
    (hq : store_get st query_id = some q)
    (hloc : pyStrip (form.location.getD "") ≠ "")
    (hpd : parse_dates form.start_date form.end_date = .ok (sd, ed))
    (hord : datesOutOfOrder sd ed = false)
    (hg : (geocode_location apiKey geo).1 = .ok (some loc))
    (hw : (get_weather_and_forecast apiKey loc.lat loc.lon api).1 = .ok (current, forecast)) :
    ∃ st', edit_post query_id form geo api apiKey st =
        .ok (st', [("Record updated.", "success")], .redirect (.detailPage q.id)) ∧
      store_get st' query_id =
        some (editUpdate (pyStrip (form.location.getD "")) loc sd ed current forecast q) ∧
      (editUpdate (pyStrip (form.location.getD "")) loc sd ed current forecast q).id = q.id ∧
      (editUpdate (pyStrip (form.location.getD "")) loc sd ed current forecast q).created_at =
        q.created_at ∧
      (editUpdate (pyStrip (form.location.getD "")) loc sd ed current forecast q).user_input =
        pyStrip (form.location.getD "") ∧
      (editUpdate (pyStrip (form.location.getD "")) loc sd ed current forecast q).normalized_name =
        some loc.name ∧
      (editUpdate (pyStrip (form.location.getD "")) loc sd ed current forecast q).lat = loc.lat ∧
      (editUpdate (pyStrip (form.location.getD "")) loc sd ed current forecast q).lon = loc.lon ∧
      (editUpdate (pyStrip (form.location.getD "")) loc sd ed current forecast q).start_date = sd ∧
      (editUpdate (pyStrip (form.location.getD "")) loc sd ed current forecast q).end_date = ed ∧
      (editUpdate (pyStrip (form.location.getD "")) loc sd ed current
        forecast q).current_weather_json = some (json_dumps current) ∧
      (editUpdate (pyStrip (form.location.getD "")) loc sd ed current forecast q).forecast_json =
        some (json_dumps forecast) ∧
      ∀ r ∈ st.recs, r.id ≠ q.id →
        r ∈ (store_update st q.id
              (editUpdate (pyStrip (form.location.getD "")) loc sd ed current forecast)).recs := by
  have hid : q.id = query_id := store_get_id hq
  refine ⟨store_update st q.id
            (editUpdate (pyStrip (form.location.getD "")) loc sd ed current forecast),
          edit_post_success hq hloc hpd hord hg hw, ?_, rfl, rfl, rfl, rfl, rfl, rfl, rfl, rfl,
          rfl, rfl, fun r hr hne => mem_store_update_of_ne _ hr hne⟩
  rw [← hid, store_get_update st q.id
    (editUpdate (pyStrip (form.location.getD "")) loc sd ed current forecast) (fun r => rfl)]
  rw [hid, hq]
  rfl

/-- Witness for C5 at a concrete input: editing the only stored row
refreshes every mutable field and keeps `id = 7` and `created_at = 3`. -/
theorem claim_C5_witness :
    ∃ st', edit_post 7 ⟨some "Paris", none, none⟩
        (.success [{ name := some "Paris", country := some "FR", lat := 2, lon := 3 }])
        ⟨.success "newCur", .success "newFc"⟩ "k"
        ⟨[{ id := 7, user_input := "old", normalized_name := some "Old, XX", lat := 0, lon := 0,
            start_date := none, end_date := none, created_at := 3,
            current_weather_json := some "oldCur", forecast_json := some "oldFc" }], 8⟩ =
        .ok (st', [("Record updated.", "success")], .redirect (.detailPage 7)) ∧
      store_get st' 7 = some (editUpdate "Paris" { name := "Paris, FR", lat := 2, lon := 3 }
        none none "newCur" "newFc"
        { id := 7, user_input := "old", normalized_name := some "Old, XX", lat := 0, lon := 0,
          start_date := none, end_date := none, created_at := 3,
          current_weather_json := some "oldCur", forecast_json := some "oldFc" }) := by
  obtain ⟨st', h1, h2, _⟩ :=
    @claim_C5 7 ⟨some "Paris", none, none⟩
      (.success [{ name := some "Paris", country := some "FR", lat := 2, lon := 3 }])
      ⟨.success "newCur", .success "newFc"⟩ "k"
      ⟨[{ id := 7, user_input := "old", normalized_name := some "Old, XX", lat := 0,
          lon := 0, start_date := none, end_date := none, created_at := 3,
          current_weather_json := some "oldCur", forecast_json := some "oldFc" }], 8⟩
      { id := 7, user_input := "old", normalized_name := some "Old, XX", lat := 0, lon := 0,
        start_date := none, end_date := none, created_at := 3,
        current_weather_json := some "oldCur", forecast_json := some "oldFc" }
      none none { name := "Paris, FR", lat := 2, lon := 3 } "newCur" "newFc"
      rfl (by decide) rfl rfl rfl rfl
  exact ⟨st', h1, h2⟩

/-- The coordinate-only lookup converts every fetch exception. -/
theorem by_coords_isOk (body : ByCoordsBody) (api : WeatherApi) (apiKey : String) (st : Store) :
    (by_coords body api apiKey st).isOk = true := by
  obtain ⟨blat, blon⟩ := body
  rcases blat with _ | lat
  · rfl
  rcases blon with _ | lon
  · rfl
  simp only [by_coords]
  rcases hfull : get_weather_and_forecast apiKey lat lon api with ⟨r, cs⟩
  rcases r with e | ⟨c, f⟩ <;> rfl

/-- The read-only handlers and delete issue no client calls and return
normally. -/
theorem readonly_handlers_isOk (query_id : Nat) (fmt : String) (st : Store) :
    (history st).isOk = true ∧ (detail query_id st).isOk = true ∧
    (edit_get query_id st).isOk = true ∧ (delete query_id st).isOk = true ∧
    (export_handler fmt st).isOk = true ∧ (index_get st).isOk = true := by
  refine ⟨rfl, ?_, ?_, ?_, ?_, rfl⟩
  · unfold detail
    split <;> rfl
  · unfold edit_get
    split <;> rfl
  · unfold delete
    split <;> rfl
  · simp only [export_handler]
    split_ifs <;> rfl

/-- Counterexample to claim C1 at a concrete input: in the POST edit flow a
geocoding timeout is not caught — the handler result is the raw propagated
exception, not a converted error response. -/
theorem claim_C1_counterexample :
    edit_post 1 ⟨some "Paris", none, none⟩ (.failure .timeout) ⟨.success "c", .success "f"⟩ "k"
      ⟨[{ id := 1, user_input := "p", normalized_name := none, lat := 0, lon := 0,
          start_date := none, end_date := none, created_at := 0,
          current_weather_json := none, forecast_json := none }], 2⟩ =
      .error (.requestExc .timeout) := by
  rfl

/-- Claim C1 as amended: the create flow and the coordinate-only lookup
catch every client exception and convert it before responding, and the
remaining handlers issue no client calls; but the POST edit flow's geocode
and weather-fetch calls are unguarded — any exception they raise propagates
out of the handler unconverted. -/
theorem claim_C1_amended :
    (∀ form geo api apiKey now st, (index_post form geo api apiKey now st).isOk = true) ∧
    (∀ body api apiKey st, (by_coords body api apiKey st).isOk = true) ∧
    (∀ query_id fmt st,
       (history st).isOk = true ∧ (detail query_id st).isOk = true ∧
       (edit_get query_id st).isOk = true ∧ (delete query_id st).isOk = true ∧
       (export_handler fmt st).isOk = true ∧ (index_get st).isOk = true) ∧
    (∀ query_id form geo api apiKey st q sd ed e,
       store_get st query_id = some q →
       pyStrip (form.location.getD "") ≠ "" →
       parse_dates form.start_date form.end_date = .ok (sd, ed) →
       datesOutOfOrder sd ed = false →
       (geocode_location apiKey geo).1 = .error e →
       edit_post query_id form geo api apiKey st = .error e) ∧
    (∀ query_id form geo api apiKey st q sd ed loc e,
       store_get st query_id = some q →
       pyStrip (form.location.getD "") ≠ "" →
       parse_dates form.start_date form.end_date = .ok (sd, ed) →
       datesOutOfOrder sd ed = false →
       (geocode_location apiKey geo).1 = .ok (some loc) →
       (get_weather_and_forecast apiKey loc.lat loc.lon api).1 = .error e →
       edit_post query_id form geo api apiKey st = .error e) :=
  ⟨index_post_isOk, by_coords_isOk,
   fun query_id fmt st => readonly_handlers_isOk query_id fmt st,
   fun query_id form geo api apiKey st q sd ed e hq hloc hpd hord hg =>
     edit_post_geoError api hq hloc hpd hord hg,
   fun query_id form geo api apiKey st q sd ed loc e hq hloc hpd hord hg hw =>
     edit_post_weatherError hq hloc hpd hord hg hw⟩

/-- Witness for the amended C1 at a concrete input: the edit flow lets a
geocoding HTTP error escape unconverted. -/
theorem claim_C1_amended_witness :
    edit_post 1 ⟨some "Lyon", none, none⟩ (.failure .httpError) ⟨.success "c", .success "f"⟩ "k"
      ⟨[{ id := 1, user_input := "p", normalized_name := none, lat := 0, lon := 0,
          start_date := none, end_date := none, created_at := 0,
          current_weather_json := none, forecast_json := none }], 2⟩ =
      .error (.requestExc .httpError) :=
  claim_C1_amended.2.2.2.1 1 ⟨some "Lyon", none, none⟩ (.failure .httpError)
    ⟨.success "c", .success "f"⟩ "k"
    ⟨[{ id := 1, user_input := "p", normalized_name := none, lat := 0, lon := 0,
        start_date := none, end_date := none, created_at := 0,
        current_weather_json := none, forecast_json := none }], 2⟩
    { id := 1, user_input := "p", normalized_name := none, lat := 0, lon := 0,
      start_date := none, end_date := none, created_at := 0,
      current_weather_json := none, forecast_json := none }
    none none (.requestExc .httpError) rfl (by decide) rfl rfl rfl

/-- Claim C6: the structured export produces one item per record with
exactly the eight exported columns (the raw blobs omitted, by the shape of
`ExportItem`), the date columns rendered as plain date strings or null, and
re-reading an item recovers the stored id, input, normalized name,
coordinates and dates. -/
theorem claim_C6 :
    (∀ st, export_handler "json" st =
       .ok (st, [], .jsonExport ((sortByCreatedAsc st.recs).map exportItem))) ∧
    (∀ st : Store, List.Perm (sortByCreatedAsc st.recs) st.recs) ∧
    (∀ q : WeatherQueryRec, recDatesValid q →
       readBackItem (exportItem q) =
         .ok { id := q.id, user_input := q.user_input,
               normalized_name := q.normalized_name, lat := q.lat, lon := q.lon,
               start_date := q.start_date, end_date := q.end_date }) := by
  refine ⟨fun st => by simp [export_handler], fun st => List.perm_insertionSort _ _, ?_⟩
  rintro q ⟨hs, he⟩
  rcases hsd : q.start_date with _ | s <;> rcases hed : q.end_date with _ | e
  · simp [readBackItem, bind, Except.bind, pure, Except.pure, exportItem, hsd, hed, parse_date]
  · have hv := he e hed
    simp [readBackItem, bind, Except.bind, pure, Except.pure, exportItem, hsd, hed, parse_date, formatDate_ne_empty,
      strptimeDate_formatDate _ hv]
  · have hv := hs s hsd
    simp [readBackItem, bind, Except.bind, pure, Except.pure, exportItem, hsd, hed, parse_date, formatDate_ne_empty,
      strptimeDate_formatDate _ hv]
  · have hv1 := hs s hsd
    have hv2 := he e hed
    simp [readBackItem, bind, Except.bind, pure, Except.pure, exportItem, hsd, hed, parse_date, formatDate_ne_empty,
      strptimeDate_formatDate _ hv1, strptimeDate_formatDate _ hv2]

/-- Witness for C6 at a concrete record (with a leap-day end date): the
export item reads back to exactly the stored fields. -/
theorem claim_C6_witness :
    recDatesValid { id := 5, user_input := "x", normalized_name := some "X, Y", lat := 1, lon := 2,
                    start_date := some ⟨2024, 1, 5⟩, end_date := some ⟨2024, 2, 29⟩,
                    created_at := 9, current_weather_json := some "cw",
                    forecast_json := some "fc" } ∧
    readBackItem (exportItem { id := 5, user_input := "x", normalized_name := some "X, Y",
                               lat := 1, lon := 2, start_date := some ⟨2024, 1, 5⟩,
                               end_date := some ⟨2024, 2, 29⟩, created_at := 9,
                               current_weather_json := some "cw",
                               forecast_json := some "fc" }) =
      .ok { id := 5, user_input := "x", normalized_name := some "X, Y", lat := 1, lon := 2,
            start_date := some ⟨2024, 1, 5⟩, end_date := some ⟨2024, 2, 29⟩ } := by
  have hval : recDatesValid
      { id := 5, user_input := "x", normalized_name := some "X, Y",
        lat := 1, lon := 2, start_date := some ⟨2024, 1, 5⟩, end_date := some ⟨2024, 2, 29⟩,
        created_at := 9, current_weather_json := some "cw", forecast_json := some "fc" } := by
    constructor
    · intro d hd
      injection hd with h
      rw [← h]
      decide
    · intro d hd
      injection hd with h
      rw [← h]
      decide
  exact ⟨hval, claim_C6.2.2 _ hval⟩

/-- Claim C7: the history listing returns all records ordered by
`created_at` descending and the export listing all records ascending; with
pairwise-distinct creation times both orderings are strict. -/
theorem claim_C7 :
    (∀ st, history st = .ok (st, [], .renderHistory (sortByCreatedDesc st.recs))) ∧
    (∀ st, export_handler "json" st =
         .ok (st, [], .jsonExport ((sortByCreatedAsc st.recs).map exportItem)) ∧
       export_handler "csv" st =
         .ok (st, [], .csvExport (csvHeader :: (sortByCreatedAsc st.recs).map csvRow))) ∧
    (∀ l : List WeatherQueryRec,
       List.Perm (sortByCreatedDesc l) l ∧ List.Pairwise createdDesc (sortByCreatedDesc l)) ∧
    (∀ l : List WeatherQueryRec,
       List.Perm (sortByCreatedAsc l) l ∧ List.Pairwise createdAsc (sortByCreatedAsc l)) ∧
    (∀ l : List WeatherQueryRec,
       List.Pairwise (fun a b => a.created_at ≠ b.created_at) l →
       List.Pairwise (fun a b => b.created_at < a.created_at) (sortByCreatedDesc l) ∧
       List.Pairwise (fun a b => a.created_at < b.created_at) (sortByCreatedAsc l)) := by
  refine ⟨fun st => rfl,
          fun st => ⟨by simp [export_handler], by simp [export_handler]⟩,
          fun l => ⟨List.perm_insertionSort _ _, List.sorted_insertionSort _ _⟩,
          fun l => ⟨List.perm_insertionSort _ _, List.sorted_insertionSort _ _⟩,
          fun l hne => ⟨?_, ?_⟩⟩
  · have hsorted : List.Pairwise createdDesc (sortByCreatedDesc l) :=
      List.sorted_insertionSort _ _
    have hperm : List.Perm (sortByCreatedDesc l) l := List.perm_insertionSort _ _
    have hne' : List.Pairwise (fun a b : WeatherQueryRec => a.created_at ≠ b.created_at)
        (sortByCreatedDesc l) :=
      (List.Perm.pairwise_iff (fun h => h.symm) hperm).mpr hne
    exact (hsorted.and hne').imp (fun h => lt_of_le_of_ne h.1 (Ne.symm h.2))
  · have hsorted : List.Pairwise createdAsc (sortByCreatedAsc l) :=
      List.sorted_insertionSort _ _
    have hperm : List.Perm (sortByCreatedAsc l) l := List.perm_insertionSort _ _
    have hne' : List.Pairwise (fun a b : WeatherQueryRec => a.created_at ≠ b.created_at)
        (sortByCreatedAsc l) :=
      (List.Perm.pairwise_iff (fun h => h.symm) hperm).mpr hne
    exact (hsorted.and hne').imp (fun h => lt_of_le_of_ne h.1 h.2)

/-- Witness for C7 at a concrete store with distinct creation times: both
orderings are strict. -/
theorem claim_C7_witness :
    List.Pairwise (fun a b : WeatherQueryRec => b.created_at < a.created_at)
      (sortByCreatedDesc
        [{ id := 1, user_input := "a", normalized_name := none, lat := 0, lon := 0,
           start_date := none, end_date := none, created_at := 1,
           current_weather_json := none, forecast_json := none },
         { id := 2, user_input := "b", normalized_name := none, lat := 0, lon := 0,
           start_date := none, end_date := none, created_at := 2,
           current_weather_json := none, forecast_json := none }]) :=
  (claim_C7.2.2.2.2
    [{ id := 1, user_input := "a", normalized_name := none, lat := 0, lon := 0,
       start_date := none, end_date := none, created_at := 1,
       current_weather_json := none, forecast_json := none },
     { id := 2, user_input := "b", normalized_name := none, lat := 0, lon := 0,
       start_date := none, end_date := none, created_at := 2,
       current_weather_json := none, forecast_json := none }]
    (by decide)).1

end WeatherApp
